import Mathlib

/-!
Verification of the Petra wallet connection lifecycle manager.

The TypeScript sources are shallowly embedded as Lean definitions:
JavaScript strings are modelled as Lean `String` (lists of Unicode code
points); the ASCII-range case conversion used by the code on hex
addresses is modelled by an explicit character map; the browser
`localStorage` is a string-keyed map together with a write log; the
asynchronous agent is modelled by passing its outcomes as explicit
parameters.  Each definition is translated from the source file named
in its doc comment.
-/

namespace QudeWallet

/-! ## String utilities (JavaScript semantics on the ASCII range) -/

/-- Lower-case a single character, as `String.prototype.toLowerCase`
acts on the ASCII range (code points 65..90 map to 97..122). -/
def toLowerChar (c : Char) : Char :=
  if 65 ≤ c.toNat ∧ c.toNat ≤ 90 then Char.ofNat (c.toNat + 32) else c

/-- Lower-case a list of characters pointwise. -/
def toLowerList (s : List Char) : List Char :=
  s.map toLowerChar

/-- Substring test, as `String.prototype.includes`: `strIncludes pat hay`
is true when `pat` occurs contiguously in `hay`. -/
def strIncludes (pat : List Char) : List Char → Bool
  | [] => pat.isEmpty
  | c :: t => pat.isPrefixOf (c :: t) || strIncludes pat t

/-- Test for the literal prefix `0x`, as `startsWith` is used in the
source (the prefix checked there is always the two characters 0 and x). -/
def startsWith0x : List Char → Bool
  | '0' :: 'x' :: _ => true
  | _ => false

/-- JavaScript truthiness of an optional string: `undefined` and the
empty string are falsy, every other string is truthy. -/
def jsFalsy (o : Option String) : Bool :=
  o.isNone || o == some ("")

/-! ## Validator (src/lib/wallet/validation.ts, src/lib/wallet/constants.ts) -/

/-- Hexadecimal digit test, as the character class of the regular
expression `0-9a-fA-F` used by the source. -/
def isHexDigit (c : Char) : Bool :=
  (decide (48 ≤ c.toNat) && decide (c.toNat ≤ 57)) ||
  (decide (97 ≤ c.toNat) && decide (c.toNat ≤ 102)) ||
  (decide (65 ≤ c.toNat) && decide (c.toNat ≤ 70))

/-- Definition of `isValidAptosAddress` from constants.ts: the whole string must match
the regular expression consisting of `0x` followed by 1 to 64 hex digits. -/
def isValidAptosAddress (address : String) : Bool :=
  match address.data with
  | '0' :: 'x' :: rest =>
      decide (1 ≤ rest.length) && decide (rest.length ≤ 64) && rest.all isHexDigit
  | _ => false

/-- Definition of `isValidPublicKey` from validation.ts: strip an optional `0x`, then
the remainder must be exactly 64 hex digits. -/
def isValidPublicKey (publicKey : String) : Bool :=
  let cleanKey : List Char :=
    match publicKey.data with
    | '0' :: 'x' :: rest => rest
    | l => l
  decide (cleanKey.length = 64) && cleanKey.all isHexDigit

/-- Static network registry from constants.ts, as key, name and chain id
triples (the rpc urls play no role in the verified claims and are kept
as inert strings). -/
structure NetworkConfig where
  name : String
  chainId : String
  rpcUrl : String
  supported : Bool
deriving DecidableEq, Repr

/-- Definition of `SUPPORTED_NETWORKS` from constants.ts, as an association list of
registry key and network configuration. -/
def SUPPORTED_NETWORKS : List (String × NetworkConfig) :=
  [ ("mainnet", ⟨"Aptos Mainnet", "1", "https://fullnode.mainnet.aptoslabs.com/v1", true⟩),
    ("testnet", ⟨"Aptos Testnet", "2", "https://fullnode.testnet.aptoslabs.com/v1", true⟩),
    ("devnet", ⟨"Aptos Devnet", "3", "https://fullnode.devnet.aptoslabs.com/v1", true⟩) ]

/-- Definition of `isValidNetwork` from validation.ts: accept a supported network
name (case-insensitively), a supported chain id, or a registry key. -/
def isValidNetwork (network : String) : Bool :=
  let lowered := toLowerList network.data
  (SUPPORTED_NETWORKS.any fun p => toLowerList p.2.name.data == lowered) ||
  (SUPPORTED_NETWORKS.any fun p => p.2.chainId == network) ||
  (SUPPORTED_NETWORKS.any fun p => p.1.data == lowered)

/-- Connection payload handed to the validator; each field is optional,
mirroring the optional fields of the TypeScript `ConnectionData`. -/
structure ConnectionData where
  address : Option String
  publicKey : Option String
  network : Option String
deriving DecidableEq

/-- Validation verdict, mirroring the TypeScript `ValidationResult`. -/
structure ValidationResult where
  isValid : Bool
  error : Option String
deriving DecidableEq, Repr

/-- Definition of `validateConnectionData` from validation.ts: the checks run in
source order and the first failure returns its specific reason. -/
def validateConnectionData (data : ConnectionData) : ValidationResult :=
  if jsFalsy data.address then
    ⟨false, some ("Wallet address is required")⟩
  else if !isValidAptosAddress (data.address.getD ("")) then
    ⟨false, some ("Invalid Aptos wallet address format")⟩
  else if jsFalsy data.publicKey then
    ⟨false, some ("Public key is required")⟩
  else if !isValidPublicKey (data.publicKey.getD ("")) then
    ⟨false, some ("Invalid public key format")⟩
  else if !jsFalsy data.network && !isValidNetwork (data.network.getD ("")) then
    ⟨false, some ("Unsupported network")⟩
  else
    ⟨true, none⟩

/-- Definition of `sanitizeWalletAddress` from validation.ts: the empty string is
returned unchanged, otherwise the input is lower-cased and `0x` is
prefixed when absent.  Modelled on the character list of the string. -/
def sanitizeWalletAddress (address : List Char) : List Char :=
  match address with
  | [] => []
  | c :: t =>
      let cleanAddress := toLowerList (c :: t)
      if startsWith0x cleanAddress then cleanAddress
      else '0' :: 'x' :: cleanAddress

/-! ## Helper lemmas for the sanitizer -/

/-- Characters produced by lower-casing are fixed by lower-casing. -/
theorem toLowerChar_idem (c : Char) : toLowerChar (toLowerChar c) = toLowerChar c := by
  unfold toLowerChar
  by_cases h : 65 ≤ c.toNat ∧ c.toNat ≤ 90
  · rw [if_pos h]
    have hlt : c.toNat + 32 < 55296 := by omega
    have hv : (c.toNat + 32).isValidChar := Or.inl hlt
    have htn : (Char.ofNat (c.toNat + 32)).toNat = c.toNat + 32 := by
      unfold Char.ofNat
      rw [dif_pos hv]
      unfold Char.ofNatAux Char.toNat
      simp [UInt32.toNat, UInt32.ofNatCore]
    rw [if_neg]
    rw [htn]
    omega
  · rw [if_neg h, if_neg h]

theorem toLowerList_idem (s : List Char) : toLowerList (toLowerList s) = toLowerList s := by
  unfold toLowerList
  rw [List.map_map]
  apply List.map_congr_left
  intro c _
  exact toLowerChar_idem c

theorem toLowerChar_digit0 : toLowerChar '0' = '0' := by decide

theorem toLowerChar_x : toLowerChar 'x' = 'x' := by decide

/-- Unfolding equation of the sanitizer on a non-empty string. -/
theorem sanitizeWalletAddress_cons (c : Char) (t : List Char) :
    sanitizeWalletAddress (c :: t) =
      if startsWith0x (toLowerList (c :: t)) then toLowerList (c :: t)
      else '0' :: 'x' :: toLowerList (c :: t) := rfl

/-- C6: for every input string, `sanitizeWalletAddress` is total (it is a
total Lean function, defined on all inputs) and idempotent: sanitizing a
sanitized address returns it unchanged. -/
theorem C6_sanitizeWalletAddress_idempotent (x : List Char) :
    sanitizeWalletAddress (sanitizeWalletAddress x) = sanitizeWalletAddress x := by
  cases x with
  | nil => rfl
  | cons c t =>
    rw [sanitizeWalletAddress_cons]
    by_cases h : startsWith0x (toLowerList (c :: t)) = true
    · rw [if_pos h]
      have hcons : toLowerList (c :: t) = toLowerChar c :: toLowerList t := rfl
      have hidem := toLowerList_idem (c :: t)
      rw [hcons] at h hidem ⊢
      rw [sanitizeWalletAddress_cons, hidem, if_pos h]
    · rw [if_neg h]
      rw [sanitizeWalletAddress_cons]
      have hlow : toLowerList ('0' :: 'x' :: toLowerList (c :: t))
          = '0' :: 'x' :: toLowerList (c :: t) := by
        show toLowerChar '0' :: toLowerChar 'x' :: toLowerList (toLowerList (c :: t))
          = '0' :: 'x' :: toLowerList (c :: t)
        rw [toLowerChar_digit0, toLowerChar_x, toLowerList_idem]
      rw [hlow]
      simp [startsWith0x]

/-! ## Connection state machine (src/lib/wallet/wallet-context.tsx) -/

/-- Definition of `WalletState` from types.ts: the single source of truth owned by the
reducer.  Timestamps are natural numbers of epoch milliseconds. -/
structure WalletState where
  isConnected : Bool
  isConnecting : Bool
  account : Option String
  network : Option String
  error : Option String
  lastConnected : Option Nat
deriving DecidableEq, Repr

/-- The `WalletAction` union dispatched to the reducer. -/
inductive WalletAction where
  | setConnecting (b : Bool)
  | setConnected (account : String) (network : String)
  | setDisconnected
  | setError (msg : String)
  | clearError
  | setNetwork (n : String)
  | setAccount (a : String)
deriving DecidableEq

/-- Definition of `initialState` from wallet-context.tsx. -/
def initialState : WalletState :=
  ⟨false, false, none, none, none, none⟩

/-- Definition of `walletReducer` from wallet-context.tsx.  The ambient clock read by
`Date.now()` in the SET_CONNECTED case is passed as the `now` argument. -/
def walletReducer (now : Nat) (state : WalletState) (action : WalletAction) : WalletState :=
  match action with
  | .setConnecting b => { state with isConnecting := b, error := none }
  | .setConnected account network =>
      { state with
        isConnected := true, isConnecting := false,
        account := some account, network := some network,
        error := none, lastConnected := some now }
  | .setDisconnected =>
      { state with
        isConnected := false, isConnecting := false,
        account := none, network := none, error := none, lastConnected := none }
  | .setError msg => { state with isConnecting := false, error := some msg }
  | .clearError => { state with error := none }
  | .setNetwork n => { state with network := some n }
  | .setAccount a => { state with account := some a }

/-! ## Persistence adapter (localStorage via the `storage` helper) -/

/-- The four persistence keys of `STORAGE_KEYS` in constants.ts. -/
inductive StorageKey where
  | walletConnected
  | lastConnectedAccount
  | preferredNetwork
  | connectionTimestamp
deriving DecidableEq, Repr

/-- The durable string-keyed store, with the current value of every key
and a log of all writes performed (used to count key rewrites). -/
structure Store where
  map : StorageKey → Option String
  log : List (StorageKey × String)

/-- Definition of `storage.set`: last-writer-wins update of one key, recorded in the log. -/
def Store.set (st : Store) (k : StorageKey) (v : String) : Store :=
  ⟨fun k2 => if k2 = k then some v else st.map k2, st.log ++ [(k, v)]⟩

/-- Definition of `storage.remove`: removal of one key (removals are not logged). -/
def Store.remove (st : Store) (k : StorageKey) : Store :=
  ⟨fun k2 => if k2 = k then none else st.map k2, st.log⟩

/-! ## Disconnect path (wallet-context.tsx, the `disconnect` callback) -/

/-- The state visible to the provider around the reducer: the wallet
state, the persistence store, the reconnect attempt counter and the
per-error auto-recovery attempt counters. -/
structure MachineState where
  wallet : WalletState
  store : Store
  reconnectAttempts : Nat
  recoveryAttempts : String → Option Nat

/-- Definition of `disconnect` from wallet-context.tsx.  The agent-side disconnect may
fail but its failure is swallowed and has no effect on this state; the
`finally` block always dispatches SET_DISCONNECTED, removes the three
keys WALLET_CONNECTED, LAST_CONNECTED_ACCOUNT and CONNECTION_TIMESTAMP,
resets the reconnect counter and clears all recovery attempts. -/
def disconnect (m : MachineState) : MachineState :=
  { wallet := walletReducer 0 m.wallet .setDisconnected,
    store :=
      ((m.store.remove .walletConnected).remove .lastConnectedAccount).remove
        .connectionTimestamp,
    reconnectAttempts := 0,
    recoveryAttempts := fun _ => none }

/-- A machine state as it stands right after a successful connect: the
wallet is connected and all four persistence keys are written. -/
def connectedMachineState : MachineState :=
  { wallet := ⟨true, false, some ("0xabc"), some ("Aptos Testnet"), none, some 1700000000000⟩,
    store :=
      ⟨fun k =>
        match k with
        | .walletConnected => some ("true")
        | .lastConnectedAccount => some ("0xabc")
        | .preferredNetwork => some ("Aptos Testnet")
        | .connectionTimestamp => some ("1700000000000"),
       []⟩,
    reconnectAttempts := 0,
    recoveryAttempts := fun _ => none }

/-- C1 counterexample: from a connected state with all four persistence
keys present, `disconnect` leaves the preferred-network key in the store,
so it is not the case that all four keys are absent afterwards. -/
theorem C1_disconnect_counterexample :
    (disconnect connectedMachineState).store.map .preferredNetwork = some ("Aptos Testnet") ∧
    ¬ ((disconnect connectedMachineState).store.map .walletConnected = none ∧
       (disconnect connectedMachineState).store.map .lastConnectedAccount = none ∧
       (disconnect connectedMachineState).store.map .preferredNetwork = none ∧
       (disconnect connectedMachineState).store.map .connectionTimestamp = none) := by
  constructor
  · rfl
  · intro h
    have := h.2.2.1
    simp [disconnect, Store.remove, connectedMachineState] at this

/-- C1 amended: after `disconnect()`, the connected-flag, last-account
and connection-timestamp keys are absent and the connection state equals
the initial Disconnected value, for every starting state; the
preferred-network key is left untouched (it is never removed). -/
theorem C1_disconnect_amended (m : MachineState) :
    (disconnect m).wallet = initialState ∧
    (disconnect m).store.map .walletConnected = none ∧
    (disconnect m).store.map .lastConnectedAccount = none ∧
    (disconnect m).store.map .connectionTimestamp = none ∧
    (disconnect m).store.map .preferredNetwork = m.store.map .preferredNetwork := by
  refine ⟨rfl, ?_, ?_, ?_, ?_⟩ <;>
    simp [disconnect, Store.remove]

/-! ## Public operations as a labelled transition system (wallet-context.tsx)

The public operations exposed by the provider are `connect`,
`disconnect`, `clearError` and the two agent-pushed change
notifications.  `connect` dispatches SET_CONNECTING true and CLEAR_ERROR,
then awaits the agent; the await resolves later with either
SET_CONNECTED (success) or SET_ERROR (failure), so a connect call
contributes a start event and a later completion event.  The code
performs no guard in `connect`: the start event is enabled in every
state. -/

/-- One observable event of the provider. -/
inductive WalletEv where
  | connectStart
  | connectSuccess (account : String) (network : String) (now : Nat)
  | connectFailure (msg : String)
  | disconnectEv
  | clearErrorEv
  | accountChange (a : String)
  | networkChange (n : String)

/-- Effect of one event on the wallet state, as the corresponding
dispatches in wallet-context.tsx.  The change notifications carry the
listener guard `state.isConnected && payload !== current`. -/
def stepW (s : WalletState) : WalletEv → WalletState
  | .connectStart => walletReducer 0 (walletReducer 0 s (.setConnecting true)) .clearError
  | .connectSuccess a n t => walletReducer t s (.setConnected a n)
  | .connectFailure msg => walletReducer 0 s (.setError msg)
  | .disconnectEv => walletReducer 0 s .setDisconnected
  | .clearErrorEv => walletReducer 0 s .clearError
  | .accountChange a =>
      if s.isConnected && (some a != s.account) then walletReducer 0 s (.setAccount a) else s
  | .networkChange n =>
      if s.isConnected && (some n != s.network) then walletReducer 0 s (.setNetwork n) else s

/-- States reachable from the initial state by the public operations,
with no precondition on when each operation may be invoked (the code
imposes none). -/
inductive Reachable : WalletState → Prop where
  | init : Reachable initialState
  | step {s : WalletState} (hs : Reachable s) (e : WalletEv) : Reachable (stepW s e)

/-- The guard the UI button enforces: the connect button is rendered
only while disconnected (wallet-connect-button.tsx renders it in the
`!isConnected` branch), so under the button a connect can only start
from a non-connected state. -/
def connectGuardOK (s : WalletState) : WalletEv → Bool
  | .connectStart => !s.isConnected
  | _ => true

/-- States reachable when connect is only started from non-connected
states, as the UI button enforces. -/
inductive GReachable : WalletState → Prop where
  | init : GReachable initialState
  | step {s : WalletState} (hs : GReachable s) (e : WalletEv)
      (hg : connectGuardOK s e = true) : GReachable (stepW s e)

/-- The account and network fields are both present or both absent, and
present exactly when the state is connected. -/
def pairInv (s : WalletState) : Bool :=
  (s.account.isSome == s.network.isSome) && (s.account.isSome == s.isConnected)

/-- The full claimed invariant: the pair condition restricted to the
claimed direction, plus mutual exclusion of connecting and connected. -/
def fullInv (s : WalletState) : Bool :=
  (s.account.isSome == s.network.isSome) &&
  (!s.account.isSome || s.isConnected) &&
  !(s.isConnecting && s.isConnected)

/-- Auxiliary invariant preservation: every event preserves `pairInv`. -/
theorem pairInv_step {s : WalletState} (h : pairInv s = true) (e : WalletEv) :
    pairInv (stepW s e) = true := by
  obtain ⟨c1, c2, a, n, er, l⟩ := s
  cases e <;>
    simp only [stepW] <;>
    (try split) <;>
    cases a <;> cases n <;> cases c1 <;>
    simp_all [walletReducer, pairInv]

/-- Auxiliary invariant preservation: every guard-respecting event
preserves `fullInv`, given the pair invariant. -/
theorem fullInv_step {s : WalletState} (hp : pairInv s = true) (hf : fullInv s = true)
    (e : WalletEv) (hg : connectGuardOK s e = true) : fullInv (stepW s e) = true := by
  obtain ⟨c1, c2, a, n, er, l⟩ := s
  cases e <;>
    simp only [stepW] <;>
    (try split) <;>
    cases a <;> cases n <;> cases c1 <;> cases c2 <;>
    simp_all [walletReducer, pairInv, fullInv, connectGuardOK]

/-- Every state reachable by the unrestricted public operations
satisfies the pair invariant. -/
theorem reachable_pairInv {s : WalletState} (h : Reachable s) : pairInv s = true := by
  induction h with
  | init => rfl
  | step hs e ih => exact pairInv_step ih e

/-- Guarded reachability implies unrestricted reachability. -/
theorem greachable_reachable {s : WalletState} (h : GReachable s) : Reachable s := by
  induction h with
  | init => exact .init
  | step hs e _ ih => exact .step ih e

/-- Every state reachable under the UI connect guard satisfies the full
invariant. -/
theorem greachable_fullInv {s : WalletState} (h : GReachable s) : fullInv s = true := by
  induction h with
  | init => rfl
  | step hs e hg ih =>
      exact fullInv_step (reachable_pairInv (greachable_reachable hs)) ih e hg

/-- The state after connect succeeds and connect is invoked again. -/
def doubleConnectState : WalletState :=
  stepW (stepW (stepW initialState .connectStart)
    (.connectSuccess ("0xabc") ("Aptos Testnet") 5)) .connectStart

/-- C2 counterexample: calling `connect()` again after a successful
connect is a trace of the public operations (the code performs no
guard), and it reaches a state in which `isConnecting` and `isConnected`
are simultaneously true, so the claimed invariant fails on the
unrestricted operations. -/
theorem C2_invariant_counterexample :
    Reachable doubleConnectState ∧
    doubleConnectState.isConnecting = true ∧
    doubleConnectState.isConnected = true :=
  ⟨.step (.step (.step .init .connectStart)
      (.connectSuccess ("0xabc") ("Aptos Testnet") 5)) .connectStart,
   rfl, rfl⟩

/-- C2 amended: in every reachable state, `account` and `network` are
both Some or both None, and Some only when connected; the mutual
exclusion of `isConnecting` and `isConnected` additionally holds on
every trace in which connect is only started while not connected, which
is what the UI button enforces (the code itself does not). -/
theorem C2_invariant_amended :
    (∀ s : WalletState, Reachable s →
      (s.account.isSome ↔ s.network.isSome) ∧
      (s.account.isSome = true → s.isConnected = true)) ∧
    (∀ s : WalletState, GReachable s →
      (s.account.isSome ↔ s.network.isSome) ∧
      (s.account.isSome = true → s.isConnected = true) ∧
      ¬(s.isConnecting = true ∧ s.isConnected = true)) := by
  have hpair : ∀ s : WalletState, pairInv s = true →
      (s.account.isSome ↔ s.network.isSome) ∧
      (s.account.isSome = true → s.isConnected = true) := by
    intro s h
    obtain ⟨c1, c2, a, n, er, l⟩ := s
    simp [pairInv] at h
    constructor
    · simp [h.1]
    · intro ha
      simp only at ha
      rw [← h.2, ha]
  constructor
  · intro s hs
    exact hpair s (reachable_pairInv hs)
  · intro s hs
    have h2 := hpair s (reachable_pairInv (greachable_reachable hs))
    have hf := greachable_fullInv hs
    refine ⟨h2.1, h2.2, ?_⟩
    intro hcc
    obtain ⟨c1, c2, a, n, er, l⟩ := s
    simp only at hcc
    simp [fullInv, hcc.1, hcc.2] at hf

/-- Witness for the amended C2 invariant at the initial state. -/
theorem C2_invariant_witness :
    ((initialState.account.isSome ↔ initialState.network.isSome) ∧
     (initialState.account.isSome = true → initialState.isConnected = true)) ∧
    ¬(initialState.isConnecting = true ∧ initialState.isConnected = true) :=
  ⟨C2_invariant_amended.1 initialState .init,
   (C2_invariant_amended.2 initialState .init).2.2⟩

/-! ## The connect path and the agent call count (C3)

The context `connect` dispatches SET_CONNECTING true and CLEAR_ERROR and
then always invokes the agent `connect()`; it contains no in-flight
guard.  The agent invocation count is threaded explicitly. -/

/-- The context `connect` up to the agent call: the dispatched actions
followed by one unconditional agent `connect()` invocation. -/
def contextConnectStart (s : WalletState) (agentCalls : Nat) : WalletState × Nat :=
  (walletReducer 0 (walletReducer 0 s (.setConnecting true)) .clearError, agentCalls + 1)

/-- The connect button is rendered only when not connected and is
disabled while connecting (wallet-connect-button.tsx), so its click
handler can only run when both flags are false. -/
def buttonCanConnect (s : WalletState) : Bool :=
  !s.isConnected && !s.isConnecting

/-- A click on the connect button: when the button is live it runs
`handleConnect`, which calls `clearError()` and then `connect()`;
otherwise nothing happens. -/
def buttonClickConnect (s : WalletState) (agentCalls : Nat) : WalletState × Nat :=
  if buttonCanConnect s then contextConnectStart (walletReducer 0 s .clearError) agentCalls
  else (s, agentCalls)

/-- A state with a connect attempt in flight. -/
def connectingState : WalletState :=
  ⟨false, true, none, none, none, none⟩

/-- C3 counterexample: with one agent connect in flight, a second call
to the context `connect()` is neither rejected nor coalesced; it issues
a second agent `connect()` invocation (the call count rises to 2). -/
theorem C3_secondConnect_counterexample :
    connectingState.isConnecting = true ∧
    (contextConnectStart connectingState 1).2 = 2 :=
  ⟨rfl, rfl⟩

/-- C3 amended: the context `connect()` itself performs no in-flight
guard and always issues exactly one more agent connect invocation; the
only protection is in the UI button, which is disabled while
`isConnecting`, so no second agent connect can be initiated through the
button while one is in flight. -/
theorem C3_secondConnect_amended :
    (∀ (s : WalletState) (n : Nat), (contextConnectStart s n).2 = n + 1) ∧
    (∀ (s : WalletState) (n : Nat), s.isConnecting = true →
      buttonClickConnect s n = (s, n)) := by
  constructor
  · intro s n
    rfl
  · intro s n h
    simp [buttonClickConnect, buttonCanConnect, h]

/-- Witness for the amended C3 statement at the in-flight state. -/
theorem C3_secondConnect_witness :
    buttonClickConnect connectingState 1 = (connectingState, 1) :=
  C3_secondConnect_amended.2 connectingState 1 rfl

/-- C4: the validator checks run in the fixed order address-presence,
address-format, public-key-presence, public-key-format,
network-validity, and the first failing check determines the returned
reason; in particular a missing or malformed address yields the
address-specific reason whatever the other fields contain. -/
theorem C4_validateConnectionData_order (data : ConnectionData) :
    (jsFalsy data.address = true →
      validateConnectionData data = ⟨false, some ("Wallet address is required")⟩) ∧
    (jsFalsy data.address = false →
      isValidAptosAddress (data.address.getD ("")) = false →
      validateConnectionData data = ⟨false, some ("Invalid Aptos wallet address format")⟩) ∧
    (jsFalsy data.address = false →
      isValidAptosAddress (data.address.getD ("")) = true →
      jsFalsy data.publicKey = true →
      validateConnectionData data = ⟨false, some ("Public key is required")⟩) ∧
    (jsFalsy data.address = false →
      isValidAptosAddress (data.address.getD ("")) = true →
      jsFalsy data.publicKey = false →
      isValidPublicKey (data.publicKey.getD ("")) = false →
      validateConnectionData data = ⟨false, some ("Invalid public key format")⟩) ∧
    (jsFalsy data.address = false →
      isValidAptosAddress (data.address.getD ("")) = true →
      jsFalsy data.publicKey = false →
      isValidPublicKey (data.publicKey.getD ("")) = true →
      jsFalsy data.network = false →
      isValidNetwork (data.network.getD ("")) = false →
      validateConnectionData data = ⟨false, some ("Unsupported network")⟩) ∧
    (jsFalsy data.address = false →
      isValidAptosAddress (data.address.getD ("")) = true →
      jsFalsy data.publicKey = false →
      isValidPublicKey (data.publicKey.getD ("")) = true →
      (jsFalsy data.network = true ∨ isValidNetwork (data.network.getD ("")) = true) →
      validateConnectionData data = ⟨true, none⟩) := by
  refine ⟨?_, ?_, ?_, ?_, ?_, ?_⟩
  · intro h1
    simp [validateConnectionData, h1]
  · intro h1 h2
    simp [validateConnectionData, h1, h2]
  · intro h1 h2 h3
    simp [validateConnectionData, h1, h2, h3]
  · intro h1 h2 h3 h4
    simp [validateConnectionData, h1, h2, h3, h4]
  · intro h1 h2 h3 h4 h5 h6
    simp [validateConnectionData, h1, h2, h3, h4, h5, h6]
  · intro h1 h2 h3 h4 h5
    cases h5 with
    | inl h => simp [validateConnectionData, h1, h2, h3, h4, h]
    | inr h => simp [validateConnectionData, h1, h2, h3, h4, h]

/-- Witness for C4: a payload with a missing address and an invalid
public key fails with the address-specific reason. -/
theorem C4_validateConnectionData_witness :
    validateConnectionData ⟨none, some ("nothex"), some ("weird")⟩ =
      ⟨false, some ("Wallet address is required")⟩ :=
  (C4_validateConnectionData_order ⟨none, some ("nothex"), some ("weird")⟩).1 rfl

/-! ## Retry policy (validation.ts, `RetryManager.executeWithRetry`)

The asynchronous operation is modelled by the outcome of each attempt,
indexed by the 1-based attempt number.  The pair returned carries the
final outcome and the number of times the operation was invoked.  When
`maxRetries = 0` the source loop never runs and throws the undefined
`lastError`, modelled by a distinguished outcome. -/

/-- Outcome of the retry wrapper: a success value, the error thrown from
the final attempted operation, or the undefined throw of a zero-attempt
run. -/
inductive RetryOutcome (E A : Type) where
  | ok (a : A)
  | err (e : E)
  | errUndefined
deriving DecidableEq

/-- The retry loop of `executeWithRetry`: at each attempt, run the
operation; on success return; on failure stop when this was the last
attempt or `shouldRetry` declines, rethrowing that attempt error,
otherwise delay and continue. -/
def retryGo {E A : Type} (op : Nat → Except E A) (shouldRetry : E → Bool) :
    Nat → Nat → RetryOutcome E A × Nat
  | _, 0 => (.errUndefined, 0)
  | attempt, fuel + 1 =>
      match op attempt with
      | .ok a => (.ok a, 1)
      | .error e =>
          if fuel == 0 || !shouldRetry e then (.err e, 1)
          else
            let r := retryGo op shouldRetry (attempt + 1) fuel
            (r.1, r.2 + 1)

/-- Definition of `RetryManager.executeWithRetry` from validation.ts: attempts run
from 1 up to `maxRetries`. -/
def executeWithRetry {E A : Type} (op : Nat → Except E A) (shouldRetry : E → Bool)
    (maxRetries : Nat) : RetryOutcome E A × Nat :=
  retryGo op shouldRetry 1 maxRetries

/-- C5: with an always-false `shouldRetry`, `executeWithRetry` invokes
the operation exactly once for every `maxRetries ≥ 1`, returns the first
attempt value on success, and on failure rethrows the first attempt own
error rather than a generic exhausted error. -/
theorem C5_retry_alwaysFalse {E A : Type} (op : Nat → Except E A) (maxRetries : Nat)
    (h : 1 ≤ maxRetries) :
    (executeWithRetry op (fun _ => false) maxRetries).2 = 1 ∧
    (∀ a, op 1 = .ok a → (executeWithRetry op (fun _ => false) maxRetries).1 = .ok a) ∧
    (∀ e, op 1 = .error e → (executeWithRetry op (fun _ => false) maxRetries).1 = .err e) := by
  obtain ⟨k, rfl⟩ : ∃ k, maxRetries = k + 1 := ⟨maxRetries - 1, by omega⟩
  refine ⟨?_, ?_, ?_⟩
  · cases hop : op 1 <;> simp [executeWithRetry, retryGo, hop]
  · intro a ha
    simp [executeWithRetry, retryGo, ha]
  · intro e he
    simp [executeWithRetry, retryGo, he]

/-- Witness for C5 at a concrete always-failing operation with three
allowed attempts. -/
theorem C5_retry_witness :
    (executeWithRetry (fun _ => (Except.error 7 : Except Nat Nat)) (fun _ => false) 3).2 = 1 ∧
    (executeWithRetry (fun _ => (Except.error 7 : Except Nat Nat)) (fun _ => false) 3).1 =
      .err 7 := by
  have h := C5_retry_alwaysFalse (fun _ => (Except.error 7 : Except Nat Nat)) 3 (by omega)
  exact ⟨h.1, h.2.2 7 rfl⟩

/-! ## Error classifier (src/lib/wallet/errors.ts)

A raised value is either an instance of one of the five wallet error
classes (carrying its message), a plain `Error` with a message, or a
non-Error value.  The five classes extend `Error` directly, so the
instanceof tests are mutually exclusive. -/

/-- The five wallet error classes from errors.ts. -/
inductive WalletErrorClass where
  | notInstalled
  | connectionRejected
  | networkUnsupported
  | walletLocked
  | unknown
deriving DecidableEq, Repr

/-- A raised JavaScript value as seen by the error handlers. -/
inductive JsValue where
  | typedError (cls : WalletErrorClass) (message : String)
  | plainError (message : String)
  | nonError
deriving DecidableEq

/-- The canonical message `ERROR_MESSAGES.WALLET_NOT_INSTALLED`. -/
def ERROR_MESSAGES_WALLET_NOT_INSTALLED : String :=
  "Petra wallet is not installed. Please install it from the Chrome Web Store."

/-- The canonical message `ERROR_MESSAGES.CONNECTION_REJECTED`. -/
def ERROR_MESSAGES_CONNECTION_REJECTED : String :=
  "Wallet connection was rejected. Please try again."

/-- The canonical message `ERROR_MESSAGES.NETWORK_UNSUPPORTED`. -/
def ERROR_MESSAGES_NETWORK_UNSUPPORTED : String :=
  "Please switch to a supported network in your Petra wallet."

/-- The canonical message `ERROR_MESSAGES.WALLET_LOCKED`. -/
def ERROR_MESSAGES_WALLET_LOCKED : String :=
  "Please unlock your Petra wallet and try again."

/-- The canonical message `ERROR_MESSAGES.UNKNOWN_ERROR`. -/
def ERROR_MESSAGES_UNKNOWN_ERROR : String :=
  "An unexpected error occurred. Please try again."

/-- The message-substring heuristics of `handleWalletError`, applied to
any value that is an `Error` but none of the four specially tested
classes: the message is lower-cased and scanned for the listed
substrings in order, defaulting to the unknown-error message. -/
def classifyLowered (m : List Char) : String :=
  if strIncludes ("user rejected").data m || strIncludes ("rejected").data m then
    ERROR_MESSAGES_CONNECTION_REJECTED
  else if strIncludes ("not installed").data m || strIncludes ("not found").data m then
    ERROR_MESSAGES_WALLET_NOT_INSTALLED
  else if strIncludes ("locked").data m then
    ERROR_MESSAGES_WALLET_LOCKED
  else if strIncludes ("network").data m || strIncludes ("chain").data m then
    ERROR_MESSAGES_NETWORK_UNSUPPORTED
  else
    ERROR_MESSAGES_UNKNOWN_ERROR

/-- The heuristics applied to the lower-cased message. -/
def classifyRawMessage (message : String) : String :=
  classifyLowered (toLowerList message.data)

/-- Definition of `handleWalletError` from errors.ts.  The four instanceof branches
map their class to its canonical message; `UnknownWalletError` has no
instanceof branch in the source and falls through, like every plain
`Error`, to the message heuristics; non-Error values map to the unknown
message. -/
def handleWalletError : JsValue → String
  | .typedError .notInstalled _ => ERROR_MESSAGES_WALLET_NOT_INSTALLED
  | .typedError .connectionRejected _ => ERROR_MESSAGES_CONNECTION_REJECTED
  | .typedError .networkUnsupported _ => ERROR_MESSAGES_NETWORK_UNSUPPORTED
  | .typedError .walletLocked _ => ERROR_MESSAGES_WALLET_LOCKED
  | .typedError .unknown message => classifyRawMessage message
  | .plainError message => classifyRawMessage message
  | .nonError => ERROR_MESSAGES_UNKNOWN_ERROR

/-- The heuristics only ever return one of the five canonical messages. -/
theorem classifyRawMessage_canonical (message : String) :
    classifyRawMessage message = ERROR_MESSAGES_WALLET_NOT_INSTALLED ∨
    classifyRawMessage message = ERROR_MESSAGES_CONNECTION_REJECTED ∨
    classifyRawMessage message = ERROR_MESSAGES_NETWORK_UNSUPPORTED ∨
    classifyRawMessage message = ERROR_MESSAGES_WALLET_LOCKED ∨
    classifyRawMessage message = ERROR_MESSAGES_UNKNOWN_ERROR := by
  unfold classifyRawMessage classifyLowered
  split_ifs <;> simp

/-- C7: every raised value is mapped to one of the five fixed canonical
user-facing messages; a message matching none of the substring
heuristics, and any non-Error value, defaults to the unknown-error
message, so a raw message is never surfaced as the result. -/
theorem C7_handleWalletError_canonical :
    (∀ e : JsValue,
      handleWalletError e = ERROR_MESSAGES_WALLET_NOT_INSTALLED ∨
      handleWalletError e = ERROR_MESSAGES_CONNECTION_REJECTED ∨
      handleWalletError e = ERROR_MESSAGES_NETWORK_UNSUPPORTED ∨
      handleWalletError e = ERROR_MESSAGES_WALLET_LOCKED ∨
      handleWalletError e = ERROR_MESSAGES_UNKNOWN_ERROR) ∧
    (∀ message : String,
      strIncludes ("user rejected").data (toLowerList message.data) = false →
      strIncludes ("rejected").data (toLowerList message.data) = false →
      strIncludes ("not installed").data (toLowerList message.data) = false →
      strIncludes ("not found").data (toLowerList message.data) = false →
      strIncludes ("locked").data (toLowerList message.data) = false →
      strIncludes ("network").data (toLowerList message.data) = false →
      strIncludes ("chain").data (toLowerList message.data) = false →
      classifyRawMessage message = ERROR_MESSAGES_UNKNOWN_ERROR) ∧
    handleWalletError .nonError = ERROR_MESSAGES_UNKNOWN_ERROR := by
  refine ⟨?_, ?_, rfl⟩
  · intro e
    cases e with
    | typedError cls message =>
        cases cls with
        | notInstalled => exact Or.inl rfl
        | connectionRejected => exact Or.inr (Or.inl rfl)
        | networkUnsupported => exact Or.inr (Or.inr (Or.inl rfl))
        | walletLocked => exact Or.inr (Or.inr (Or.inr (Or.inl rfl)))
        | unknown => exact classifyRawMessage_canonical message
    | plainError message => exact classifyRawMessage_canonical message
    | nonError => exact Or.inr (Or.inr (Or.inr (Or.inr rfl)))
  · intro message h1 h2 h3 h4 h5 h6 h7
    unfold classifyRawMessage classifyLowered
    simp [h1, h2, h3, h4, h5, h6, h7]

/-- Witness for C7 at a message that matches no heuristic. -/
theorem C7_handleWalletError_witness :
    classifyRawMessage ("boom") = ERROR_MESSAGES_UNKNOWN_ERROR :=
  C7_handleWalletError_canonical.2.1 ("boom")
    (by decide) (by decide) (by decide) (by decide) (by decide) (by decide) (by decide)

/-! ## Recovery catalog (src/lib/wallet/error-recovery.ts) -/

/-- The `RecoveryAction` union from error-recovery.ts. -/
inductive RecoveryAction where
  | installWallet
  | unlockWallet
  | switchNetwork
  | retryConnection
  | refreshPage
  | contactSupport
deriving DecidableEq, Repr

/-- The `RecoveryStrategy` record from error-recovery.ts; lower priority
numbers are shown first. -/
structure RecoveryStrategy where
  action : RecoveryAction
  title : String
  description : String
  actionUrl : Option String
  isAutomatic : Option Bool
  priority : Nat
deriving DecidableEq, Repr

/-- Definition of `PETRA_DOWNLOAD_URL` from constants.ts. -/
def PETRA_DOWNLOAD_URL : String :=
  "https://chrome.google.com/webstore/detail/petra-aptos-wallet/ejjladinnckdgjemekebdpeokbikhfci"

/-- The strategy pushed for `WalletNotInstalledError`. -/
def installWalletStrategy : RecoveryStrategy :=
  ⟨.installWallet, "Install Petra Wallet",
   "Download and install the Petra wallet browser extension",
   some PETRA_DOWNLOAD_URL, none, 1⟩

/-- The strategy pushed for `ConnectionRejectedError`. -/
def rejectedRetryStrategy : RecoveryStrategy :=
  ⟨.retryConnection, "Try Again",
   "Click the connect button again and approve the connection", none, none, 1⟩

/-- The strategy pushed for `WalletLockedError`. -/
def unlockWalletStrategy : RecoveryStrategy :=
  ⟨.unlockWallet, "Unlock Wallet",
   "Open your Petra wallet and enter your password to unlock it", none, none, 1⟩

/-- The strategy pushed for `NetworkUnsupportedError`. -/
def switchNetworkStrategy : RecoveryStrategy :=
  ⟨.switchNetwork, "Switch Network",
   "Change to a supported network (Mainnet, Testnet, or Devnet) in your Petra wallet",
   none, none, 1⟩

/-- The first strategy pushed for `UnknownWalletError`. -/
def unknownRetryStrategy : RecoveryStrategy :=
  ⟨.retryConnection, "Retry Connection",
   "Try connecting again - this might be a temporary issue", none, none, 1⟩

/-- The second strategy pushed for `UnknownWalletError`. -/
def unknownRefreshStrategy : RecoveryStrategy :=
  ⟨.refreshPage, "Refresh Page",
   "Refresh the page and try connecting again", none, none, 2⟩

/-- The first generic fallback strategy. -/
def fallbackRetryStrategy : RecoveryStrategy :=
  ⟨.retryConnection, "Try Again", "Retry the wallet connection", none, none, 2⟩

/-- The second generic fallback strategy. -/
def fallbackRefreshStrategy : RecoveryStrategy :=
  ⟨.refreshPage, "Refresh Page", "Refresh the page and try again", none, none, 3⟩

/-- The catch-all strategy appended to every result. -/
def contactSupportStrategy : RecoveryStrategy :=
  ⟨.contactSupport, "Contact Support",
   "If the problem persists, please contact our support team", none, none, 10⟩

/-- Stable insertion of a strategy into a priority-sorted list. -/
def insertByPriority (s : RecoveryStrategy) : List RecoveryStrategy → List RecoveryStrategy
  | [] => [s]
  | h :: t => if h.priority ≤ s.priority then h :: insertByPriority s t else s :: h :: t

/-- The `sort` call comparing `a.priority - b.priority`, an ascending
stable sort on priority. -/
def sortStrategies : List RecoveryStrategy → List RecoveryStrategy
  | [] => []
  | h :: t => insertByPriority h (sortStrategies t)

/-- Definition of `getRecoveryStrategies` from error-recovery.ts.  The five instanceof
tests are mutually exclusive, so exactly the branch of the value class
contributes; when no branch fired (plain errors and non-Error values)
the two generic fallback strategies are used; the contact-support
strategy is appended to every list, which is then sorted by priority. -/
def getRecoveryStrategies (error : JsValue) : List RecoveryStrategy :=
  let strategies : List RecoveryStrategy :=
    match error with
    | .typedError .notInstalled _ => [installWalletStrategy]
    | .typedError .connectionRejected _ => [rejectedRetryStrategy]
    | .typedError .walletLocked _ => [unlockWalletStrategy]
    | .typedError .networkUnsupported _ => [switchNetworkStrategy]
    | .typedError .unknown _ => [unknownRetryStrategy, unknownRefreshStrategy]
    | .plainError _ => []
    | .nonError => []
  let chosen := if strategies.isEmpty then [fallbackRetryStrategy, fallbackRefreshStrategy]
    else strategies
  sortStrategies (chosen ++ [contactSupportStrategy])

/-- Ascending priority check on adjacent elements. -/
def prioritySorted : List RecoveryStrategy → Bool
  | [] => true
  | [_] => true
  | a :: b :: t => decide (a.priority ≤ b.priority) && prioritySorted (b :: t)

/-- C8: for every error input the recovery list is non-empty, sorted
ascending by priority, ends with the catch-all contact-support strategy,
and every other entry has strictly smaller priority than contact
support, so the catch-all is shown last for every error kind. -/
theorem C8_recoveryStrategies_shape (error : JsValue) :
    getRecoveryStrategies error ≠ [] ∧
    prioritySorted (getRecoveryStrategies error) = true ∧
    (getRecoveryStrategies error).getLast? = some contactSupportStrategy ∧
    ∀ s ∈ (getRecoveryStrategies error).dropLast,
      s.priority < contactSupportStrategy.priority := by
  have hm : ∀ (cls : WalletErrorClass) (m : String),
      getRecoveryStrategies (.typedError cls m) = getRecoveryStrategies (.typedError cls ("")) := by
    intro cls m
    cases cls <;> rfl
  have hp : ∀ m : String,
      getRecoveryStrategies (.plainError m) = getRecoveryStrategies (.plainError ("")) := by
    intro m
    rfl
  cases error with
  | typedError cls message =>
      rw [hm cls message]
      cases cls <;> exact ⟨by decide, by decide, by decide, by decide⟩
  | plainError message =>
      rw [hp message]
      exact ⟨by decide, by decide, by decide, by decide⟩
  | nonError => exact ⟨by decide, by decide, by decide, by decide⟩

/-! ## Agent change notifications (wallet-context.tsx listeners, C9) -/

/-- The state the listeners observe and update: the wallet state and the
persistence store. -/
structure ListenerState where
  wallet : WalletState
  store : Store

/-- The account change listener registered in wallet-context.tsx: when
the state is connected and the pushed account differs from the current
one, dispatch SET_ACCOUNT and re-persist the last-account key; otherwise
do nothing. -/
def onAccountChangeEvent (m : ListenerState) (newAccount : String) : ListenerState :=
  if m.wallet.isConnected && (some newAccount != m.wallet.account) then
    ⟨walletReducer 0 m.wallet (.setAccount newAccount),
     m.store.set .lastConnectedAccount newAccount⟩
  else m

/-- The network change listener registered in wallet-context.tsx: when
the state is connected and the pushed network differs from the current
one, dispatch SET_NETWORK and re-persist the preferred-network key;
otherwise do nothing. -/
def onNetworkChangeEvent (m : ListenerState) (newNetwork : String) : ListenerState :=
  if m.wallet.isConnected && (some newNetwork != m.wallet.network) then
    ⟨walletReducer 0 m.wallet (.setNetwork newNetwork),
     m.store.set .preferredNetwork newNetwork⟩
  else m

/-- A connected listener state with an empty write log. -/
def connectedListenerState : ListenerState :=
  ⟨⟨true, false, some ("0xabc"), some ("Aptos Testnet"), none, some 1700000000000⟩,
   ⟨fun _ => none, []⟩⟩

/-- Effect of one differing account notification while connected. -/
theorem onAccountChangeEvent_effect (m : ListenerState) (a : String)
    (hc : m.wallet.isConnected = true) (hne : some a ≠ m.wallet.account) :
    onAccountChangeEvent m a =
      ⟨{ m.wallet with account := some a },
       m.store.set .lastConnectedAccount a⟩ := by
  have hcond : (m.wallet.isConnected && (some a != m.wallet.account)) = true := by
    simp [hc, bne_iff_ne, hne]
  rw [onAccountChangeEvent, if_pos hcond]
  rfl

/-- C9 counterexample: while connected, an account change notification
that carries the currently stored account is ignored: the state is
unchanged and the last-account key is not rewritten (the write log stays
empty), because the listener requires the new account to differ. -/
theorem C9_accountChange_counterexample :
    connectedListenerState.wallet.isConnected = true ∧
    onAccountChangeEvent connectedListenerState ("0xabc") = connectedListenerState ∧
    (onAccountChangeEvent connectedListenerState ("0xabc")).store.log = [] := by
  refine ⟨rfl, ?_, ?_⟩ <;>
    simp [onAccountChangeEvent, connectedListenerState]

/-- C9 amended: while connected, an account change notification whose
account differs from the current one updates `account` in place and
appends one write of the last-account key, leaving `isConnected`,
`isConnecting`, `network`, `error`, `lastConnected` and all other store
keys unchanged; one equal to the current account is ignored; two
consecutive notifications that each differ from the then-current account
update `account` twice and write the key twice; any notification while
not connected leaves state and store unchanged. -/
theorem C9_accountChange_amended :
    (∀ (m : ListenerState) (a : String),
      m.wallet.isConnected = true → some a ≠ m.wallet.account →
      (onAccountChangeEvent m a).wallet = { m.wallet with account := some a } ∧
      (onAccountChangeEvent m a).store.log =
        m.store.log ++ [(StorageKey.lastConnectedAccount, a)] ∧
      (onAccountChangeEvent m a).store.map .lastConnectedAccount = some a ∧
      (∀ k, k ≠ StorageKey.lastConnectedAccount →
        (onAccountChangeEvent m a).store.map k = m.store.map k)) ∧
    (∀ (m : ListenerState) (a : String),
      m.wallet.isConnected = true → some a = m.wallet.account →
      onAccountChangeEvent m a = m) ∧
    (∀ (m : ListenerState) (a : String), m.wallet.isConnected = false →
      onAccountChangeEvent m a = m) ∧
    (∀ (m : ListenerState) (n : String), m.wallet.isConnected = false →
      onNetworkChangeEvent m n = m) ∧
    (∀ (m : ListenerState) (a b : String),
      m.wallet.isConnected = true → some a ≠ m.wallet.account → b ≠ a →
      (onAccountChangeEvent (onAccountChangeEvent m a) b).wallet.account = some b ∧
      (onAccountChangeEvent (onAccountChangeEvent m a) b).wallet.isConnected = true ∧
      (onAccountChangeEvent (onAccountChangeEvent m a) b).store.log =
        m.store.log ++
          [(StorageKey.lastConnectedAccount, a), (StorageKey.lastConnectedAccount, b)]) := by
  refine ⟨?_, ?_, ?_, ?_, ?_⟩
  · intro m a hc hne
    rw [onAccountChangeEvent_effect m a hc hne]
    refine ⟨rfl, ?_, ?_, ?_⟩
    · simp [Store.set]
    · simp [Store.set]
    · intro k hk
      simp [Store.set, hk]
  · intro m a hc heq
    rw [onAccountChangeEvent]
    rw [if_neg]
    simp [heq]
  · intro m a hc
    rw [onAccountChangeEvent]
    rw [if_neg]
    simp [hc]
  · intro m n hc
    rw [onNetworkChangeEvent]
    rw [if_neg]
    simp [hc]
  · intro m a b hc hne hba
    rw [onAccountChangeEvent_effect m a hc hne]
    have hc2 : (⟨{ m.wallet with account := some a },
        m.store.set .lastConnectedAccount a⟩ : ListenerState).wallet.isConnected = true := hc
    have hne2 : some b ≠ (⟨{ m.wallet with account := some a },
        m.store.set .lastConnectedAccount a⟩ : ListenerState).wallet.account := by
      simp [hba]
    rw [onAccountChangeEvent_effect _ b hc2 hne2]
    refine ⟨rfl, hc, ?_⟩
    simp [Store.set]

/-- Witness for the amended C9 statement: a differing notification at a
concrete connected state updates the account, and a notification at a
concrete disconnected state is ignored. -/
theorem C9_accountChange_witness :
    (onAccountChangeEvent connectedListenerState ("0xdef")).wallet =
      { connectedListenerState.wallet with account := some ("0xdef") } ∧
    onAccountChangeEvent ⟨initialState, ⟨fun _ => none, []⟩⟩ ("0xdef") =
      ⟨initialState, ⟨fun _ => none, []⟩⟩ :=
  ⟨(C9_accountChange_amended.1 connectedListenerState ("0xdef") rfl (by decide)).1,
   C9_accountChange_amended.2.2.1 ⟨initialState, ⟨fun _ => none, []⟩⟩ ("0xdef") rfl⟩

/-! ## Auto-recovery manager (error-recovery.ts, C10) -/

/-- The per-error attempt bookkeeping of `AutoRecoveryManager`, keyed by
constructor name plus message. -/
structure AutoRecoveryManager where
  recoveryAttempts : String → Option Nat

/-- Definition of `maxAutoRetries` from error-recovery.ts. -/
def maxAutoRetries : Nat := 2

/-- The JavaScript constructor name of each wallet error class. -/
def errorClassName : WalletErrorClass → String
  | .notInstalled => "WalletNotInstalledError"
  | .connectionRejected => "ConnectionRejectedError"
  | .networkUnsupported => "NetworkUnsupportedError"
  | .walletLocked => "WalletLockedError"
  | .unknown => "UnknownWalletError"

/-- Definition of `getErrorKey` from error-recovery.ts: constructor name and message
for Error instances, a fixed key otherwise. -/
def getErrorKey : JsValue → String
  | .typedError cls message => errorClassName cls ++ ":" ++ message
  | .plainError message => "Error:" ++ message
  | .nonError => "unknown_error"

/-- The temporary-issue message heuristic used by `shouldAutoRecover`
for plain Error instances. -/
def tempIssueMessage (message : String) : Bool :=
  strIncludes ("network").data (toLowerList message.data) ||
  strIncludes ("timeout").data (toLowerList message.data) ||
  strIncludes ("temporary").data (toLowerList message.data)

/-- Definition of `shouldAutoRecover` from error-recovery.ts: user rejections and a
missing wallet are never auto-recovered; unsupported-network and unknown
wallet errors always are; any other Error instance (including
`WalletLockedError`, which has no branch of its own) is auto-recovered
only when its message signals a temporary issue; non-Error values are
not. -/
def shouldAutoRecover : JsValue → Bool
  | .typedError .connectionRejected _ => false
  | .typedError .notInstalled _ => false
  | .typedError .networkUnsupported _ => true
  | .typedError .unknown _ => true
  | .typedError .walletLocked message => tempIssueMessage message
  | .plainError message => tempIssueMessage message
  | .nonError => false

/-- Result of one `attemptAutoRecovery` call: the returned boolean, the
manager state afterwards, and whether the retry callback ran. -/
structure RecoveryCallResult where
  recovered : Bool
  mgr : AutoRecoveryManager
  callbackInvoked : Bool

/-- Definition of `attemptAutoRecovery` from error-recovery.ts.  The callback outcome
is passed as a parameter: the counter for the error key is read (missing
means 0); at or beyond `maxAutoRetries` the call returns false without
running the callback, as it does when `shouldAutoRecover` declines;
otherwise the counter is incremented, the callback runs, and on success
the counter is deleted while on failure it keeps the incremented value. -/
def attemptAutoRecovery (mgr : AutoRecoveryManager) (error : JsValue)
    (callbackSucceeds : Bool) : RecoveryCallResult :=
  let errorKey := getErrorKey error
  let attempts := (mgr.recoveryAttempts errorKey).getD 0
  if maxAutoRetries ≤ attempts then ⟨false, mgr, false⟩
  else if !shouldAutoRecover error then ⟨false, mgr, false⟩
  else
    let mgr1 : AutoRecoveryManager :=
      ⟨fun k => if k = errorKey then some (attempts + 1) else mgr.recoveryAttempts k⟩
    if callbackSucceeds then
      ⟨true, ⟨fun k => if k = errorKey then none else mgr1.recoveryAttempts k⟩, true⟩
    else ⟨false, mgr1, true⟩

/-- C10: `attemptAutoRecovery` returns false without invoking the
callback on `ConnectionRejectedError` and `WalletNotInstalledError`
inputs and whenever two attempts are already recorded for the error key;
consequently no per-key counter ever exceeds 2. -/
theorem C10_autoRecovery_bounds :
    (∀ (mgr : AutoRecoveryManager) (message : String) (cb : Bool),
      attemptAutoRecovery mgr (.typedError .connectionRejected message) cb =
        ⟨false, mgr, false⟩) ∧
    (∀ (mgr : AutoRecoveryManager) (message : String) (cb : Bool),
      attemptAutoRecovery mgr (.typedError .notInstalled message) cb =
        ⟨false, mgr, false⟩) ∧
    (∀ (mgr : AutoRecoveryManager) (error : JsValue) (cb : Bool),
      2 ≤ (mgr.recoveryAttempts (getErrorKey error)).getD 0 →
      attemptAutoRecovery mgr error cb = ⟨false, mgr, false⟩) ∧
    (∀ (mgr : AutoRecoveryManager) (error : JsValue) (cb : Bool),
      (∀ k, (mgr.recoveryAttempts k).getD 0 ≤ 2) →
      ∀ k, ((attemptAutoRecovery mgr error cb).mgr.recoveryAttempts k).getD 0 ≤ 2) := by
  refine ⟨?_, ?_, ?_, ?_⟩
  · intro mgr message cb
    rw [attemptAutoRecovery]
    split
    · rfl
    · rw [if_pos]
      simp [shouldAutoRecover]
  · intro mgr message cb
    rw [attemptAutoRecovery]
    split
    · rfl
    · rw [if_pos]
      simp [shouldAutoRecover]
  · intro mgr error cb h
    rw [attemptAutoRecovery]
    rw [if_pos]
    exact h
  · intro mgr error cb hb k
    rw [attemptAutoRecovery]
    split
    · exact hb k
    · split
      · exact hb k
      · next hlt _ =>
          have hsmall : (mgr.recoveryAttempts (getErrorKey error)).getD 0 ≤ 1 := by
            rw [maxAutoRetries] at hlt
            omega
          split
          · by_cases hk : k = getErrorKey error
            · simp [hk]
            · simp [hk]
              exact hb k
          · by_cases hk : k = getErrorKey error
            · simp [hk]
              omega
            · simp [hk]
              exact hb k

/-- Witness for C10 at concrete managers: a fresh manager refuses to
recover a rejected connection, a manager with two recorded attempts for
the key refuses an unknown error, and the counter bound is preserved on
a fresh manager. -/
theorem C10_autoRecovery_witness :
    attemptAutoRecovery ⟨fun _ => none⟩ (.typedError .connectionRejected ("no")) true =
      ⟨false, ⟨fun _ => none⟩, false⟩ ∧
    attemptAutoRecovery
        ⟨fun k => if k = ("UnknownWalletError:boom") then some 2 else none⟩
        (.typedError .unknown ("boom")) true =
      ⟨false, ⟨fun k => if k = ("UnknownWalletError:boom") then some 2 else none⟩, false⟩ ∧
    ((attemptAutoRecovery ⟨fun _ => none⟩ (.typedError .unknown ("boom"))
        false).mgr.recoveryAttempts ("UnknownWalletError:boom")).getD 0 ≤ 2 :=
  ⟨C10_autoRecovery_bounds.1 ⟨fun _ => none⟩ ("no") true,
   C10_autoRecovery_bounds.2.2.1
     ⟨fun k => if k = ("UnknownWalletError:boom") then some 2 else none⟩
     (.typedError .unknown ("boom")) true (by simp [getErrorKey, errorClassName]),
   C10_autoRecovery_bounds.2.2.2 ⟨fun _ => none⟩ (.typedError .unknown ("boom")) false
     (fun k => by simp) ("UnknownWalletError:boom")⟩

end QudeWallet
